import Mathlib

/-!
# Shallow embedding of the Skincare booking backend

This file embeds, as executable Lean definitions, the request handlers and
middleware of the skincare booking backend (Express/Mongoose, TypeScript):
the composite booking workflow (`createTransaction`), the authentication
workflows (`register`, `login`, `changePassword`), the list endpoints
(`getAllAccounts`, `getAllTransactions`), the therapist update handler
(`updateTherapist`), the authorization middleware (`auth.ts` role predicates
and `checkActive`), and the centralized error handler
(`errorHandler.middleware.ts`).

Modelling conventions:
* The document store (MongoDB via Mongoose) is a non-goal of the spec and is
  treated as a store-and-query service: a collection is a `List` of documents,
  `findOne`/`findById` are `List.find?`, and `save` appends (or replaces) a
  document and always succeeds.  Generated object ids are drawn from a
  counter.
* Request body fields arriving as JSON strings are plain `String`s; the
  JavaScript falsiness test `!field` on such a field is `String.isEmpty`
  (both a missing field and the empty string are falsy).
* `bcrypt` and JWT signing are black-box primitives: password hashing and
  hash comparison are taken as function parameters, and a signed token is
  the payload `{_id, role}` it encodes.
* `new Date(s)` string parsing is a function parameter
  `parseDate : String → Option Date`; `none` models an invalid date
  (`isNaN(d.getTime())`).
-/

namespace Skincare

/-- The role enumeration (`RoleEnum`), referenced throughout the source:
Admin, Staff, Therapist, Customer. -/
inductive Role where
  | Admin
  | Staff
  | Therapist
  | Customer
  deriving Repr, DecidableEq

/-- A calendar date (year/month/day), the part of a JS `Date` the handlers
inspect (`getFullYear`, and full-date ordering for the spec's notion of
"in the future"). -/
structure Date where
  year : Int
  month : Int
  day : Int
  deriving Repr, DecidableEq

/-- Strict ordering of dates, lexicographic on (year, month, day): `a` is
strictly earlier than `b`. -/
def Date.lt (a b : Date) : Bool :=
  decide (a.year < b.year ∨ (a.year = b.year ∧
    (a.month < b.month ∨ (a.month = b.month ∧ a.day < b.day))))

/-- An `Account` document (`Account.model.ts`): username, hashed password,
email, role, dob, phone, isActive. -/
structure Account where
  _id : String
  username : String
  password : String
  email : String
  role : Role
  dob : Date
  phone : String
  isActive : Bool
  deriving Repr, DecidableEq

/-- A `Service` document (`Service.model.ts`): serviceName, description,
price, isActive, images. -/
structure Service where
  _id : String
  serviceName : String
  description : String
  price : Int
  isActive : Bool
  images : String
  deriving Repr, DecidableEq

/-- An `Appointment` document (`Appointment.model.ts`). -/
structure Appointment where
  _id : String
  therapistId : String
  customerId : String
  serviceId : String
  slotsId : String
  checkInImage : String
  checkOutImage : String
  notes : String
  amount : Int
  status : String
  deriving Repr, DecidableEq

/-- A `Shifts` document (`Shifts.model.ts`): slotsId, appointmentId,
therapistId, date, isAvailable. -/
structure Shift where
  _id : String
  slotsId : String
  appointmentId : String
  therapistId : String
  date : String
  isAvailable : Bool
  deriving Repr, DecidableEq

/-- A `Transaction` document (`Transaction.model.ts`): customerId,
appointmentId, paymentMethod, status. -/
structure Transaction where
  _id : String
  customerId : String
  appointmentId : String
  paymentMethod : String
  status : String
  deriving Repr, DecidableEq

/-- The decoded JWT payload attached to an authenticated request
(`req.user`): `{_id, role}`. -/
structure UserCtx where
  _id : String
  role : Role
  deriving Repr, DecidableEq

/-- A fresh object id generated by the store for the `n`-th created
document. -/
def genId (n : Nat) : String := "oid" ++ toString n

/-! ## Composite booking workflow (`Transaction.controller.ts`,
`createTransaction`) -/

/-- The request body of `POST /api/transaction`: therapistId, slotsId,
serviceId, notes, date, paymentMethod.  A missing field is the empty
string (JS falsy). -/
structure BookingReq where
  therapistId : String
  slotsId : String
  serviceId : String
  paymentMethod : String
  notes : String
  date : String
  deriving Repr, DecidableEq

/-- The collections the booking workflow touches, plus the id counter of
the store. -/
structure BookingDB where
  services : List Service
  appointments : List Appointment
  shifts : List Shift
  transactions : List Transaction
  nextId : Nat
  deriving Repr, DecidableEq

/-- The response of `createTransaction`: an error forwarded to the error
handler (`next(new AppError(message, code))`) or the 201 payload
`{newAppointment, shift, transaction}`. -/
inductive BookingResult where
  | err (message : String) (statusCode : Nat)
  | created (newAppointment : Appointment) (shift : Shift) (transaction : Transaction)
  deriving Repr, DecidableEq

/-- HTTP status of a booking response. -/
def BookingResult.status : BookingResult → Nat
  | .err _ code => code
  | .created _ _ _ => 201

/-- The appointment document built by `createTransaction` (lines 205-215):
status "Scheduled", amount snapshotted from the service's price, customer
taken from the authenticated user. -/
def bookedAppointment (req : BookingReq) (u : UserCtx) (db : BookingDB)
    (service : Service) : Appointment :=
  { _id := genId db.nextId
    therapistId := req.therapistId
    customerId := u._id
    slotsId := req.slotsId
    serviceId := req.serviceId
    checkInImage := ""
    checkOutImage := ""
    notes := req.notes
    amount := service.price
    status := "Scheduled" }

/-- The shift document built by `createTransaction` (lines 220-226):
links the new appointment, the given slot and therapist, marked
available. -/
def bookedShift (req : BookingReq) (u : UserCtx) (db : BookingDB)
    (service : Service) : Shift :=
  { _id := genId (db.nextId + 1)
    slotsId := req.slotsId
    appointmentId := (bookedAppointment req u db service)._id
    therapistId := req.therapistId
    date := req.date
    isAvailable := true }

/-- The transaction document built by `createTransaction` (lines 231-236):
links the new appointment to the authenticated customer, status
"pending". -/
def bookedTransaction (req : BookingReq) (u : UserCtx) (db : BookingDB)
    (service : Service) : Transaction :=
  { _id := genId (db.nextId + 2)
    customerId := u._id
    appointmentId := (bookedAppointment req u db service)._id
    paymentMethod := req.paymentMethod
    status := "pending" }

/-- `createTransaction` (`Transaction.controller.ts` lines 179-249):
required-field check, authentication check, service lookup, then the
three sequential writes (appointment, shift, transaction), answering 201
with the three new documents. -/
def createTransaction (req : BookingReq) (user : Option UserCtx)
    (db : BookingDB) : BookingResult × BookingDB :=
  if req.therapistId.isEmpty || req.slotsId.isEmpty ||
      req.serviceId.isEmpty || req.paymentMethod.isEmpty then
    (.err "Bad request" 400, db)
  else
    match user with
    | none => (.err "Authentication required" 401, db)
    | some u =>
      match db.services.find? (fun s => s._id == req.serviceId) with
      | none => (.err "Service not found" 404, db)
      | some service =>
        let appointment := bookedAppointment req u db service
        let shift := bookedShift req u db service
        let transaction := bookedTransaction req u db service
        (.created appointment shift transaction,
          { db with
            appointments := db.appointments ++ [appointment]
            shifts := db.shifts ++ [shift]
            transactions := db.transactions ++ [transaction]
            nextId := db.nextId + 3 })

/-! ## Registration (`Account.controller.ts`, `register`, lines 836-921) -/

/-- The request body of `POST /api/account/register`.  A missing field is
the empty string (JS falsy). -/
structure RegisterReq where
  username : String
  email : String
  password : String
  dob : String
  phone : String
  deriving Repr, DecidableEq

/-- The response of `register`: a 400 `res.json({errors})` with its list
of messages, or the 201 `{message}` success body.  (The 500 storage-error
path is outside the store-and-query model.) -/
inductive RegisterResult where
  | validationErr (errors : List String)
  | created (message : String)
  deriving Repr, DecidableEq

/-- HTTP status of a register response. -/
def RegisterResult.status : RegisterResult → Nat
  | .validationErr _ => 400
  | .created _ => 201

/-- `register`: required-field and password-length checks, dob parsing,
year-based dob bounds, the phone-length check (whose error message the
source pushes into `errors` without ever returning it), duplicate email
and username checks, then account creation with hashed password and role
fixed to Customer. -/
def register (parseDate : String → Option Date) (hash : String → String)
    (currentDate : Date) (accounts : List Account) (req : RegisterReq) :
    RegisterResult × List Account :=
  let currentYear := currentDate.year
  let errors : List String :=
    (if req.username.isEmpty || req.email.isEmpty || req.password.isEmpty ||
        req.dob.isEmpty || req.phone.isEmpty then
      ["Please enter all required fields (username, email, password, date of birth, phone number)"]
    else []) ++
    (if !req.password.isEmpty && req.password.length < 6 then
      ["Password must be at least 6 characters"]
    else [])
  if errors.length > 0 then (.validationErr errors, accounts)
  else
    match parseDate req.dob with
    | none => (.validationErr ["Invalid date of birth format. Use YYYY-MM-DD."], accounts)
    | some dobDate =>
      if dobDate.year > currentYear then
        (.validationErr ["Date of Birth cannot be in the future"], accounts)
      else if dobDate.year < currentYear - 120 then
        (.validationErr ["Date of Birth cannot be more than 120 years in the past"], accounts)
      else
        -- Lines 876-878 of the source push this message into `errors`;
        -- no later statement reads `errors`, so the handler proceeds.
        let _phoneErrors : List String :=
          if !req.phone.isEmpty && req.phone.length < 10 then
            ["Phone number must be at least 10 digits"]
          else []
        if (accounts.find? (fun a => a.email == req.email)).isSome then
          (.validationErr ["Email already exists"], accounts)
        else if (accounts.find? (fun a => a.username == req.username)).isSome then
          (.validationErr ["Username already exists"], accounts)
        else
          let newUser : Account :=
            { _id := genId accounts.length
              username := req.username
              email := req.email
              password := hash req.password
              role := .Customer
              dob := dobDate
              phone := req.phone
              isActive := true }
          (.created "Registration successful, please log in", accounts ++ [newUser])

/-! ## Login (`Account.controller.ts`, `login`, lines 978-1025) -/

/-- The user object of the 200 login body (lines 1009-1016): id, username,
email, dob, role, isActive — built without the password field. -/
structure UserView where
  id : String
  username : String
  email : String
  dob : Date
  role : Role
  isActive : Bool
  deriving Repr, DecidableEq

/-- The projection of an account document into the login response's user
object. -/
def userView (a : Account) : UserView :=
  { id := a._id
    username := a.username
    email := a.email
    dob := a.dob
    role := a.role
    isActive := a.isActive }

/-- The payload `{_id, role}` signed into the JWT issued at login. -/
structure Token where
  _id : String
  role : Role
  deriving Repr, DecidableEq

/-- The response of `login`: 400 missing fields, 401 invalid credentials,
403 deactivated, or the 200 body with the user view and token. -/
inductive LoginResult where
  | missingFields
  | invalidCredentials
  | deactivated
  | ok (user : UserView) (token : Token)
  deriving Repr, DecidableEq

/-- HTTP status of a login response. -/
def LoginResult.status : LoginResult → Nat
  | .missingFields => 400
  | .invalidCredentials => 401
  | .deactivated => 403
  | .ok _ _ => 200

/-- `login`: field presence, `findOne({email})`, `bcrypt.compare` against
the stored hash (black-box parameter `compare`), active-flag gate, then
token issuance. -/
def login (compare : String → String → Bool) (accounts : List Account)
    (email password : String) : LoginResult :=
  if email.isEmpty || password.isEmpty then .missingFields
  else
    match accounts.find? (fun a => a.email == email) with
    | none => .invalidCredentials
    | some user =>
      if !compare password user.password then .invalidCredentials
      else if !user.isActive then .deactivated
      else .ok (userView user) { _id := user._id, role := user.role }

/-! ## Change password (`Account.controller.ts`, `changePassword`,
lines 1352-1408) -/

/-- The response of `changePassword`: an error forwarded as
`next(new AppError(message, code))`, or the 200 `{message}` body. -/
inductive ChangePwResult where
  | err (message : String) (statusCode : Nat)
  | ok (message : String)
  deriving Repr, DecidableEq

/-- HTTP status of a changePassword response. -/
def ChangePwResult.status : ChangePwResult → Nat
  | .err _ code => code
  | .ok _ => 200

/-- `changePassword`: authentication check, account lookup by the token's
id, field presence, current-password match (`bcrypt.compare`),
same-as-current rejection, minimum-length check, then re-hash and
persist (`user.save()` replaces the stored document). -/
def changePassword (compare : String → String → Bool)
    (hash : String → String) (user : Option UserCtx)
    (accounts : List Account) (currentPassword newPassword : String) :
    ChangePwResult × List Account :=
  match user with
  | none => (.err "Authentication required" 401, accounts)
  | some u =>
    match accounts.find? (fun a => a._id == u._id) with
    | none => (.err "User not found" 404, accounts)
    | some acct =>
      if currentPassword.isEmpty || newPassword.isEmpty then
        (.err "Current password and new password are required" 400, accounts)
      else if !compare currentPassword acct.password then
        (.err "Invalid current password" 400, accounts)
      else if currentPassword == newPassword then
        (.err "New password must be different from current password" 400, accounts)
      else if newPassword.length < 6 then
        (.err "New password must be at least 6 characters" 400, accounts)
      else
        (.ok "Password changed successfully",
          accounts.map (fun a =>
            if a._id == u._id then { a with password := hash newPassword } else a))

/-! ## List endpoints (`getAllAccounts` lines 115-135,
`getAllTransactions` lines 65-79) -/

/-- The response of a get-all endpoint: an error forwarded to the error
handler, or the 200 body holding every record. -/
inductive GetAllResult (α : Type) where
  | err (message : String) (statusCode : Nat)
  | ok (data : List α)
  deriving Repr, DecidableEq

/-- HTTP status of a get-all response. -/
def GetAllResult.status : GetAllResult α → Nat
  | .err _ code => code
  | .ok _ => 200

/-- `getAllTransactions`: `Transaction.find()`, 404 "No transactions
found" on an empty result, otherwise 200 with the whole collection. -/
def getAllTransactions (transactions : List Transaction) :
    GetAllResult Transaction :=
  if transactions.isEmpty then .err "No transactions found" 404
  else .ok transactions

/-- `getAllAccounts`: authentication check, Admin role check,
`Account.find()`, 404 "No accounts found" on an empty result, otherwise
200 with the whole collection. -/
def getAllAccounts (user : Option UserCtx) (accounts : List Account) :
    GetAllResult Account :=
  match user with
  | none => .err "Authentication required" 401
  | some u =>
    if u.role ≠ Role.Admin then .err "Unauthorized: Admin access required" 403
    else if accounts.isEmpty then .err "No accounts found" 404
    else .ok accounts

/-! ## Therapist update (`Therapist` controller, `updateTherapist`) -/

/-- A certification entry of a therapist document. -/
structure Cert where
  name : String
  issuedBy : String
  issuedDate : String
  deriving Repr, DecidableEq

/-- A `Therapist` document (`Therapist.model.ts`): accountId,
specialization (service refs), certification, experience. -/
structure Therapist where
  _id : String
  accountId : String
  specialization : List String
  certification : List Cert
  experience : String
  deriving Repr, DecidableEq

/-- The body of `PUT /api/therapist/:therapistId`.  `some v` models the
key being present in `req.body` (the source tests `"accountId" in
req.body`). -/
structure TherapistUpdate where
  accountId : Option String
  specialization : Option (List String)
  certification : Option (List Cert)
  experience : Option String
  deriving Repr, DecidableEq

/-- The response of `updateTherapist`: an error forwarded to the error
handler, or the 200 body with the updated document. -/
inductive TherapistUpdateResult where
  | err (message : String) (statusCode : Nat)
  | ok (therapist : Therapist)
  deriving Repr, DecidableEq

/-- HTTP status of an updateTherapist response. -/
def TherapistUpdateResult.status : TherapistUpdateResult → Nat
  | .err _ code => code
  | .ok _ => 200

/-- The field merge `findByIdAndUpdate` performs: each field present in
the body replaces the stored one. -/
def applyTherapistUpdate (b : TherapistUpdate) (t : Therapist) : Therapist :=
  { t with
    accountId := b.accountId.getD t.accountId
    specialization := b.specialization.getD t.specialization
    certification := b.certification.getD t.certification
    experience := b.experience.getD t.experience }

/-- `updateTherapist`: rejects any body containing `accountId` with 400
"Cannot update accountId" before touching the store; otherwise
`findByIdAndUpdate` merges the body into the stored document (404 when
the id matches nothing). -/
def updateTherapist (therapistId : String) (b : TherapistUpdate)
    (therapists : List Therapist) : TherapistUpdateResult × List Therapist :=
  if b.accountId.isSome then
    (.err "Cannot update accountId" 400, therapists)
  else
    match therapists.find? (fun t => t._id == therapistId) with
    | none => (.err "Therapist not found" 404, therapists)
    | some t =>
      (.ok (applyTherapistUpdate b t),
        therapists.map (fun x =>
          if x._id == therapistId then applyTherapistUpdate b x else x))

/-! ## Authorization middleware (`middleware/auth.ts`) -/

/-- The outcome of one middleware stage: terminate the request with a
status and `{error}` body, or call `next()`. -/
inductive MwOut where
  | respond (statusCode : Nat) (error : String)
  | next
  deriving Repr, DecidableEq

/-- `isAdmin` (lines 117-131): 500 when no decoded user is attached, 403
on a non-Admin role, otherwise `next()`. -/
def isAdmin (user : Option UserCtx) : MwOut :=
  match user with
  | none => .respond 500 "Authentication middleware must run before isAdmin"
  | some u =>
    if u.role ≠ Role.Admin then .respond 403 "Admin access required"
    else .next

/-- `isStaff`: 500 when no decoded user is attached, 403 on a non-Staff
role, otherwise `next()`. -/
def isStaff (user : Option UserCtx) : MwOut :=
  match user with
  | none => .respond 500 "Authentication middleware must run before isStaff"
  | some u =>
    if u.role ≠ Role.Staff then .respond 403 "Staff access required"
    else .next

/-- `isStaffOrAdmin`: 500 when no decoded user is attached, 403 unless the
role is Staff or Admin. -/
def isStaffOrAdmin (user : Option UserCtx) : MwOut :=
  match user with
  | none => .respond 500 "Authentication middleware must run before isStaffOrAdmin"
  | some u =>
    if u.role ≠ Role.Staff ∧ u.role ≠ Role.Admin then
      .respond 403 "Staff or Admin access required"
    else .next

/-- `isTherapist`: 500 when no decoded user is attached (the source reuses
the `isAdmin` message), 403 on a non-Therapist role. -/
def isTherapist (user : Option UserCtx) : MwOut :=
  match user with
  | none => .respond 500 "Authentication middleware must run before isAdmin"
  | some u =>
    if u.role ≠ Role.Therapist then .respond 403 "Therapist access required"
    else .next

/-- `isTherapistOrStaff`: 500 when no decoded user is attached (the source
reuses the `isAdmin` message), 403 unless the role is Therapist or
Staff. -/
def isTherapistOrStaff (user : Option UserCtx) : MwOut :=
  match user with
  | none => .respond 500 "Authentication middleware must run before isAdmin"
  | some u =>
    if u.role ≠ Role.Therapist ∧ u.role ≠ Role.Staff then
      .respond 403 "Therapist or Staff access required"
    else .next

/-- `checkActive` (lines 85-115): 500 when no decoded user is attached
(before any store access), 401 when the account no longer exists, 403
when it is inactive, otherwise `next()`. -/
def checkActive (user : Option UserCtx) (accounts : List Account) : MwOut :=
  match user with
  | none => .respond 500 "Authentication middleware must run before checkActive"
  | some u =>
    match accounts.find? (fun a => a._id == u._id) with
    | none => .respond 401 "User not found"
    | some a =>
      if !a.isActive then .respond 403 "Account is inactive"
      else .next

/-! ## Centralized error handler (`middleware/errorHandler.middleware.ts`)
and JSON response shapes -/

/-- A JSON value, for stating which keys a response body carries. -/
inductive JVal where
  | str (s : String)
  | num (n : Int)
  | bool (b : Bool)
  | null
  | arr (xs : List JVal)
  | obj (fields : List (String × JVal))

/-- Field lookup in a JSON object (`none` on a non-object or an absent
key). -/
def JVal.lookup (k : String) : JVal → Option JVal
  | .obj fields => List.lookup k fields
  | _ => none

/-- Modelled from the spec: `AppError.util.ts` is not among the provided
sources.  Per the spec's error-handling design, an `AppError` carries the
message and status code given at construction and, being an `Error`, a
call-stack string captured at the throw site. -/
structure AppError where
  message : String
  statusCode : Nat
  stack : String
  deriving Repr, DecidableEq

/-- `errorHandler`: emits `err.statusCode || 500` as the HTTP status and
the body `{status: "error", statusCode, message: err.message ||
"Internal Server Error", stack: err.stack}`. -/
def errorHandler (err : AppError) : Nat × JVal :=
  let statusCode := if err.statusCode = 0 then 500 else err.statusCode
  let message := if err.message.isEmpty then "Internal Server Error" else err.message
  (statusCode,
    .obj [("status", .str "error"),
          ("statusCode", .num statusCode),
          ("message", .str message),
          ("stack", .str err.stack)])

/-- The JSON body `register` writes directly with `res.json` (lines
851/858/865/872/884/891/909): `{errors: [{msg}, ...]}` on validation
failure, `{message}` on success — neither passes through
`errorHandler`. -/
def renderRegister : RegisterResult → JVal
  | .validationErr errors =>
    .obj [("errors", .arr (errors.map (fun m => .obj [("msg", .str m)])))]
  | .created message =>
    .obj [("message", .str message)]

/-- A concrete booking: one service in the store, a customer books it. -/
def bookingService : Service :=
  { _id := "svc1", serviceName := "Facial", description := "A facial",
    price := 50, isActive := true, images := "" }

/-- A booking store holding exactly `bookingService` and nothing else. -/
def bookingDb : BookingDB :=
  { services := [bookingService], appointments := [], shifts := [],
    transactions := [], nextId := 0 }

/-- A well-formed booking request naming `bookingService`. -/
def bookingReq : BookingReq :=
  { therapistId := "th1", slotsId := "slot1", serviceId := "svc1",
    paymentMethod := "Cash", notes := "first visit", date := "2026-10-20" }

/-- The authenticated customer placing `bookingReq`. -/
def bookingUser : UserCtx := { _id := "cust1", role := .Customer }

/-- A booking request naming a serviceId absent from `bookingDb`. -/
def bookingReqNoSvc : BookingReq :=
  { bookingReq with serviceId := "missing" }

/-- A black-box stand-in for `bcrypt.compare`: a hash matches exactly the
password it tags. -/
def compareHash (password stored : String) : Bool :=
  stored == "hashed:" ++ password

/-- A black-box stand-in for `bcrypt.hash`. -/
def hashPw (password : String) : String := "hashed:" ++ password

/-- A stored, active customer account used by the authentication
witnesses. -/
def aliceAccount : Account :=
  { _id := "acc1", username := "alice", password := "hashed:secret1",
    email := "alice@example.com", role := .Customer,
    dob := { year := 2000, month := 1, day := 2 }, phone := "0123456789",
    isActive := true }

/-- A concrete stand-in for JS `new Date(string)` covering the dates the
registration scenarios use; everything else is an invalid date. -/
def regParseDate : String → Option Date := fun s =>
  if s = "2027-01-01" then some { year := 2027, month := 1, day := 1 }
  else if s = "2026-12-31" then some { year := 2026, month := 12, day := 31 }
  else if s = "2000-01-02" then some { year := 2000, month := 1, day := 2 }
  else if s = "1905-06-01" then some { year := 1905, month := 6, day := 1 }
  else none

/-- The server's current date in the registration scenarios. -/
def regNow : Date := { year := 2026, month := 10, day := 12 }

/-- A registration request whose date of birth is strictly in the future
(later in the current year), with every other field valid. -/
def futureDobReq : RegisterReq :=
  { username := "carol", email := "carol@example.com", password := "secret1",
    dob := "2026-12-31", phone := "0123456789" }

/-- A registration request whose date of birth lies in a strictly later
year than the current one. -/
def nextYearDobReq : RegisterReq :=
  { futureDobReq with dob := "2027-01-01" }

/-- A registration request whose phone number is shorter than 10
characters, with every other field valid and no duplicates possible. -/
def shortPhoneReq : RegisterReq :=
  { username := "bob", email := "bob@example.com", password := "secret1",
    dob := "2000-01-02", phone := "12345" }

/-- A stored transaction used by the get-all witness. -/
def sampleTransaction : Transaction :=
  { _id := "t1", customerId := "cust1", appointmentId := "ap1",
    paymentMethod := "Cash", status := "pending" }

/-- An authenticated Admin used by the get-all witness. -/
def adminUser : UserCtx := { _id := "adm1", role := .Admin }

/-- A registration request with every required field missing. -/
def missingFieldsReq : RegisterReq :=
  { username := "", email := "", password := "", dob := "", phone := "" }

/-- A stored therapist used by the update witness. -/
def sampleTherapist : Therapist :=
  { _id := "th1", accountId := "acc9", specialization := ["svc1"],
    certification := [⟨"CIDESCO", "CIDESCO Intl", "2020-01-01"⟩],
    experience := "5 years" }

/-- An update body that tries to change `accountId`. -/
def accountIdUpdate : TherapistUpdate :=
  { accountId := some "acc2", specialization := none, certification := none,
    experience := some "6 years" }

/-- A sequence of update operations aimed at `sampleTherapist`. -/
def sampleOps : List (String × TherapistUpdate) :=
  [("th1", accountIdUpdate),
   ("th1", { accountId := none, specialization := none, certification := none,
             experience := some "7 years" })]

/-! # Theorems -/

/-- C1: for every booking request by an authenticated customer naming an
existing service, a therapist and a slot, `createTransaction` answers 201
and appends exactly one new Appointment (status "Scheduled", amount the
service's price, customer the authenticated user), exactly one new Shift
(isAvailable true, linking the new appointment, the given slot and
therapist) and exactly one new Transaction (status "pending", referencing
the new appointment and the authenticated customer). -/
theorem createTransaction_creates_booking
    (req : BookingReq) (u : UserCtx) (db : BookingDB) (service : Service)
    (hreq : (req.therapistId.isEmpty || req.slotsId.isEmpty ||
      req.serviceId.isEmpty || req.paymentMethod.isEmpty) = false)
    (hsvc : db.services.find? (fun s => s._id == req.serviceId) = some service) :
    createTransaction req (some u) db =
      (.created (bookedAppointment req u db service)
        (bookedShift req u db service) (bookedTransaction req u db service),
       { db with
         appointments := db.appointments ++ [bookedAppointment req u db service]
         shifts := db.shifts ++ [bookedShift req u db service]
         transactions := db.transactions ++ [bookedTransaction req u db service]
         nextId := db.nextId + 3 }) ∧
    (createTransaction req (some u) db).fst.status = 201 ∧
    (bookedAppointment req u db service).status = "Scheduled" ∧
    (bookedAppointment req u db service).amount = service.price ∧
    (bookedAppointment req u db service).customerId = u._id ∧
    (bookedShift req u db service).isAvailable = true ∧
    (bookedShift req u db service).appointmentId = (bookedAppointment req u db service)._id ∧
    (bookedShift req u db service).slotsId = req.slotsId ∧
    (bookedShift req u db service).therapistId = req.therapistId ∧
    (bookedTransaction req u db service).status = "pending" ∧
    (bookedTransaction req u db service).appointmentId = (bookedAppointment req u db service)._id ∧
    (bookedTransaction req u db service).customerId = u._id := by
  refine ⟨?_, ?_, rfl, rfl, rfl, rfl, rfl, rfl, rfl, rfl, rfl, rfl⟩ <;>
    simp [createTransaction, hreq, hsvc, BookingResult.status]

/-- Witness for C1 at a concrete request, store and customer. -/
theorem createTransaction_creates_booking_witness :
    ((bookingReq.therapistId.isEmpty || bookingReq.slotsId.isEmpty ||
      bookingReq.serviceId.isEmpty || bookingReq.paymentMethod.isEmpty) = false) ∧
    (bookingDb.services.find? (fun s => s._id == bookingReq.serviceId) =
      some bookingService) ∧
    (createTransaction bookingReq (some bookingUser) bookingDb =
      (.created (bookedAppointment bookingReq bookingUser bookingDb bookingService)
        (bookedShift bookingReq bookingUser bookingDb bookingService)
        (bookedTransaction bookingReq bookingUser bookingDb bookingService),
       { bookingDb with
         appointments := bookingDb.appointments ++
           [bookedAppointment bookingReq bookingUser bookingDb bookingService]
         shifts := bookingDb.shifts ++
           [bookedShift bookingReq bookingUser bookingDb bookingService]
         transactions := bookingDb.transactions ++
           [bookedTransaction bookingReq bookingUser bookingDb bookingService]
         nextId := bookingDb.nextId + 3 }) ∧
      (createTransaction bookingReq (some bookingUser) bookingDb).fst.status = 201 ∧
      (bookedAppointment bookingReq bookingUser bookingDb bookingService).status = "Scheduled" ∧
      (bookedAppointment bookingReq bookingUser bookingDb bookingService).amount = bookingService.price ∧
      (bookedAppointment bookingReq bookingUser bookingDb bookingService).customerId = bookingUser._id ∧
      (bookedShift bookingReq bookingUser bookingDb bookingService).isAvailable = true ∧
      (bookedShift bookingReq bookingUser bookingDb bookingService).appointmentId =
        (bookedAppointment bookingReq bookingUser bookingDb bookingService)._id ∧
      (bookedShift bookingReq bookingUser bookingDb bookingService).slotsId = bookingReq.slotsId ∧
      (bookedShift bookingReq bookingUser bookingDb bookingService).therapistId = bookingReq.therapistId ∧
      (bookedTransaction bookingReq bookingUser bookingDb bookingService).status = "pending" ∧
      (bookedTransaction bookingReq bookingUser bookingDb bookingService).appointmentId =
        (bookedAppointment bookingReq bookingUser bookingDb bookingService)._id ∧
      (bookedTransaction bookingReq bookingUser bookingDb bookingService).customerId = bookingUser._id) :=
  ⟨rfl, rfl,
    createTransaction_creates_booking bookingReq bookingUser bookingDb
      bookingService rfl rfl⟩

/-- C9: when the serviceId of a booking request matches no stored service,
`createTransaction` fails with 404 "Service not found" and the store is
unchanged: no Appointment, Shift or Transaction is created. -/
theorem createTransaction_service_not_found
    (req : BookingReq) (u : UserCtx) (db : BookingDB)
    (hreq : (req.therapistId.isEmpty || req.slotsId.isEmpty ||
      req.serviceId.isEmpty || req.paymentMethod.isEmpty) = false)
    (hsvc : db.services.find? (fun s => s._id == req.serviceId) = none) :
    createTransaction req (some u) db = (.err "Service not found" 404, db) ∧
    (createTransaction req (some u) db).fst.status = 404 ∧
    (createTransaction req (some u) db).snd = db := by
  refine ⟨?_, ?_, ?_⟩ <;> simp [createTransaction, hreq, hsvc, BookingResult.status]

/-- Witness for C9 at a concrete request whose service does not exist. -/
theorem createTransaction_service_not_found_witness :
    ((bookingReqNoSvc.therapistId.isEmpty || bookingReqNoSvc.slotsId.isEmpty ||
      bookingReqNoSvc.serviceId.isEmpty || bookingReqNoSvc.paymentMethod.isEmpty) = false) ∧
    (bookingDb.services.find? (fun s => s._id == bookingReqNoSvc.serviceId) = none) ∧
    (createTransaction bookingReqNoSvc (some bookingUser) bookingDb =
      (.err "Service not found" 404, bookingDb) ∧
     (createTransaction bookingReqNoSvc (some bookingUser) bookingDb).fst.status = 404 ∧
     (createTransaction bookingReqNoSvc (some bookingUser) bookingDb).snd = bookingDb) :=
  ⟨rfl, rfl,
    createTransaction_service_not_found bookingReqNoSvc bookingUser bookingDb
      rfl rfl⟩

/-- C10: with no decoded user attached to the request, every role
predicate and `checkActive` respond 500 (not 401 or 403) and never call
`next()`, so such a request never passes a role predicate. -/
theorem roleGuards_require_decoded_user (accounts : List Account) :
    isAdmin none = .respond 500 "Authentication middleware must run before isAdmin" ∧
    isStaff none = .respond 500 "Authentication middleware must run before isStaff" ∧
    isStaffOrAdmin none = .respond 500 "Authentication middleware must run before isStaffOrAdmin" ∧
    isTherapist none = .respond 500 "Authentication middleware must run before isAdmin" ∧
    isTherapistOrStaff none = .respond 500 "Authentication middleware must run before isAdmin" ∧
    checkActive none accounts = .respond 500 "Authentication middleware must run before checkActive" ∧
    isAdmin none ≠ .next ∧ isStaff none ≠ .next ∧ isStaffOrAdmin none ≠ .next ∧
    isTherapist none ≠ .next ∧ isTherapistOrStaff none ≠ .next ∧
    checkActive none accounts ≠ .next := by
  refine ⟨rfl, rfl, rfl, rfl, rfl, rfl, ?_, ?_, ?_, ?_, ?_, ?_⟩ <;>
    simp [isAdmin, isStaff, isStaffOrAdmin, isTherapist, isTherapistOrStaff,
      checkActive]

/-- C2: for a login request whose email matches a stored account, a
password failing the hash comparison yields 401; a matching password on a
deactivated account yields 403; a matching password on an active account
yields 200 with a signed token and a user object built without the
password field (the view is unchanged under any change of the stored
password). -/
theorem login_credential_gates
    (compare : String → String → Bool) (accounts : List Account)
    (email password : String) (a : Account)
    (hemail : email.isEmpty = false) (hpw : password.isEmpty = false)
    (hfind : accounts.find? (fun x => x.email == email) = some a) :
    (compare password a.password = false →
      login compare accounts email password = .invalidCredentials ∧
      (login compare accounts email password).status = 401) ∧
    (compare password a.password = true → a.isActive = false →
      login compare accounts email password = .deactivated ∧
      (login compare accounts email password).status = 403) ∧
    (compare password a.password = true → a.isActive = true →
      login compare accounts email password =
        .ok (userView a) { _id := a._id, role := a.role } ∧
      (login compare accounts email password).status = 200) ∧
    (∀ p, userView { a with password := p } = userView a) := by
  refine ⟨?_, ?_, ?_, fun p => rfl⟩
  · intro h
    simp [login, hemail, hpw, hfind, h, LoginResult.status]
  · intro h hact
    simp [login, hemail, hpw, hfind, h, hact, LoginResult.status]
  · intro h hact
    simp [login, hemail, hpw, hfind, h, hact, LoginResult.status]

/-- Witness for C2 at a concrete account and comparison function. -/
theorem login_credential_gates_witness :
    ("alice@example.com".isEmpty = false) ∧
    ("secret1".isEmpty = false) ∧
    ([aliceAccount].find? (fun x => x.email == "alice@example.com") =
      some aliceAccount) ∧
    ((compareHash "secret1" aliceAccount.password = false →
      login compareHash [aliceAccount] "alice@example.com" "secret1" = .invalidCredentials ∧
      (login compareHash [aliceAccount] "alice@example.com" "secret1").status = 401) ∧
    (compareHash "secret1" aliceAccount.password = true → aliceAccount.isActive = false →
      login compareHash [aliceAccount] "alice@example.com" "secret1" = .deactivated ∧
      (login compareHash [aliceAccount] "alice@example.com" "secret1").status = 403) ∧
    (compareHash "secret1" aliceAccount.password = true → aliceAccount.isActive = true →
      login compareHash [aliceAccount] "alice@example.com" "secret1" =
        .ok (userView aliceAccount) { _id := aliceAccount._id, role := aliceAccount.role } ∧
      (login compareHash [aliceAccount] "alice@example.com" "secret1").status = 200) ∧
    (∀ p, userView { aliceAccount with password := p } = userView aliceAccount)) :=
  ⟨rfl, rfl, by decide,
    login_credential_gates compareHash [aliceAccount] "alice@example.com"
      "secret1" aliceAccount rfl rfl (by decide)⟩

/-- C5: for an authenticated user whose account exists and who supplies
both password fields, `changePassword` answers 400 and leaves the store
unchanged when the current password fails the hash comparison, when the
new password equals the current one, or when the new password is shorter
than 6 characters; only when none of these hold does it re-hash and
persist the new password. -/
theorem changePassword_gates
    (compare : String → String → Bool) (hash : String → String)
    (u : UserCtx) (accounts : List Account) (acct : Account)
    (c n : String)
    (hfind : accounts.find? (fun a => a._id == u._id) = some acct)
    (hc : c.isEmpty = false) (hn : n.isEmpty = false) :
    (compare c acct.password = false →
      changePassword compare hash (some u) accounts c n =
        (.err "Invalid current password" 400, accounts)) ∧
    (compare c acct.password = true → c = n →
      changePassword compare hash (some u) accounts c n =
        (.err "New password must be different from current password" 400, accounts)) ∧
    (compare c acct.password = true → c ≠ n → n.length < 6 →
      changePassword compare hash (some u) accounts c n =
        (.err "New password must be at least 6 characters" 400, accounts)) ∧
    (compare c acct.password = true → c ≠ n → ¬n.length < 6 →
      changePassword compare hash (some u) accounts c n =
        (.ok "Password changed successfully",
          accounts.map (fun a =>
            if a._id == u._id then { a with password := hash n } else a))) := by
  refine ⟨?_, ?_, ?_, ?_⟩
  · intro h
    simp [changePassword, hfind, hc, hn, h]
  · intro h he
    subst he
    simp [changePassword, hfind, hc, hn, h]
  · intro h hne hlen
    simp [changePassword, hfind, hc, hn, h, hne, hlen]
  · intro h hne hlen
    simp [changePassword, hfind, hc, hn, h, hne, hlen]

/-- Witness for C5: alice successfully changes her password, and each
rejection gate is stated at the same concrete input. -/
theorem changePassword_gates_witness :
    ([aliceAccount].find? (fun a => a._id == "acc1") = some aliceAccount) ∧
    ("secret1".isEmpty = false) ∧ ("newsecret".isEmpty = false) ∧
    ((compareHash "secret1" aliceAccount.password = false →
      changePassword compareHash hashPw (some { _id := "acc1", role := .Customer })
          [aliceAccount] "secret1" "newsecret" =
        (.err "Invalid current password" 400, [aliceAccount])) ∧
    (compareHash "secret1" aliceAccount.password = true → "secret1" = "newsecret" →
      changePassword compareHash hashPw (some { _id := "acc1", role := .Customer })
          [aliceAccount] "secret1" "newsecret" =
        (.err "New password must be different from current password" 400, [aliceAccount])) ∧
    (compareHash "secret1" aliceAccount.password = true → "secret1" ≠ "newsecret" →
        "newsecret".length < 6 →
      changePassword compareHash hashPw (some { _id := "acc1", role := .Customer })
          [aliceAccount] "secret1" "newsecret" =
        (.err "New password must be at least 6 characters" 400, [aliceAccount])) ∧
    (compareHash "secret1" aliceAccount.password = true → "secret1" ≠ "newsecret" →
        ¬"newsecret".length < 6 →
      changePassword compareHash hashPw (some { _id := "acc1", role := .Customer })
          [aliceAccount] "secret1" "newsecret" =
        (.ok "Password changed successfully",
          [aliceAccount].map (fun a =>
            if a._id == "acc1" then { a with password := hashPw "newsecret" } else a)))) :=
  ⟨by decide, rfl, rfl,
    changePassword_gates compareHash hashPw { _id := "acc1", role := .Customer }
      [aliceAccount] aliceAccount "secret1" "newsecret" (by decide) rfl rfl⟩

/-- C3 counterexample: a date of birth strictly in the future but within
the current year is not rejected — registration answers 201 and persists
an account, because the source compares only `getFullYear()` values. -/
theorem register_future_dob_not_rejected :
    Date.lt regNow { year := 2026, month := 12, day := 31 } = true ∧
    regParseDate futureDobReq.dob = some { year := 2026, month := 12, day := 31 } ∧
    (register regParseDate hashPw regNow [] futureDobReq).fst.status = 201 ∧
    (register regParseDate hashPw regNow [] futureDobReq).snd ≠ [] := by
  refine ⟨by decide, by decide, rfl, by decide⟩

/-- C3 amended: registration rejects with 400, creating no account, a date
of birth whose year is strictly greater than the current year, and one
whose year is more than 120 less than the current year (the bounds are
enforced at year granularity only). -/
theorem register_dob_year_bounds
    (parseDate : String → Option Date) (hash : String → String)
    (cur : Date) (accounts : List Account) (req : RegisterReq)
    (dobDate : Date)
    (hfields : (req.username.isEmpty || req.email.isEmpty ||
      req.password.isEmpty || req.dob.isEmpty || req.phone.isEmpty) = false)
    (hpwlen : ¬req.password.length < 6)
    (hparse : parseDate req.dob = some dobDate) :
    (dobDate.year > cur.year →
      register parseDate hash cur accounts req =
        (.validationErr ["Date of Birth cannot be in the future"], accounts) ∧
      (register parseDate hash cur accounts req).fst.status = 400) ∧
    (dobDate.year < cur.year - 120 →
      register parseDate hash cur accounts req =
        (.validationErr ["Date of Birth cannot be more than 120 years in the past"], accounts) ∧
      (register parseDate hash cur accounts req).fst.status = 400) := by
  simp only [Bool.or_eq_false_iff] at hfields
  obtain ⟨⟨⟨⟨hu, he⟩, hp⟩, hd⟩, hph⟩ := hfields
  constructor
  · intro hfut
    simp [register, hu, he, hp, hd, hph, hpwlen, hparse, hfut,
      RegisterResult.status]
  · intro hpast
    have hnotfut : ¬dobDate.year > cur.year := by omega
    simp [register, hu, he, hp, hd, hph, hpwlen, hparse, hnotfut, hpast,
      RegisterResult.status]

/-- Witness for the amended C3 at a concrete next-year date of birth. -/
theorem register_dob_year_bounds_witness :
    ((nextYearDobReq.username.isEmpty || nextYearDobReq.email.isEmpty ||
      nextYearDobReq.password.isEmpty || nextYearDobReq.dob.isEmpty ||
      nextYearDobReq.phone.isEmpty) = false) ∧
    (¬nextYearDobReq.password.length < 6) ∧
    (regParseDate nextYearDobReq.dob = some { year := 2027, month := 1, day := 1 }) ∧
    (((2027 : Int) > regNow.year →
      register regParseDate hashPw regNow [] nextYearDobReq =
        (.validationErr ["Date of Birth cannot be in the future"], []) ∧
      (register regParseDate hashPw regNow [] nextYearDobReq).fst.status = 400) ∧
    ((2027 : Int) < regNow.year - 120 →
      register regParseDate hashPw regNow [] nextYearDobReq =
        (.validationErr ["Date of Birth cannot be more than 120 years in the past"], []) ∧
      (register regParseDate hashPw regNow [] nextYearDobReq).fst.status = 400)) :=
  ⟨rfl, by decide, by decide,
    register_dob_year_bounds regParseDate hashPw regNow [] nextYearDobReq
      { year := 2027, month := 1, day := 1 } rfl (by decide) (by decide)⟩

/-- C4: the phone-length rule is dead code — a registration whose phone
has fewer than 10 characters (all else valid, no duplicates) is answered
201 and the account is persisted, because the source pushes the error
message into `errors` without ever returning it. -/
theorem register_short_phone_creates_account :
    shortPhoneReq.phone.length < 10 ∧
    (register regParseDate hashPw regNow [] shortPhoneReq).fst.status = 201 ∧
    register regParseDate hashPw regNow [] shortPhoneReq =
      (.created "Registration successful, please log in",
        [{ _id := genId 0, username := "bob", email := "bob@example.com",
           password := hashPw "secret1", role := .Customer,
           dob := { year := 2000, month := 1, day := 2 }, phone := "12345",
           isActive := true }]) := by
  refine ⟨by decide, rfl, by decide⟩

/-- C6: `getAll` answers 404 on an empty collection (never 200 with an
empty array) and 200 with every record on a non-empty one — for the
transaction endpoint unconditionally, and for the account endpoint under
an authenticated Admin. -/
theorem getAll_empty_collection_404
    (transactions : List Transaction) (accounts : List Account)
    (u : UserCtx) (user : Option UserCtx)
    (hadmin : u.role = Role.Admin) :
    (transactions = [] →
      getAllTransactions transactions = .err "No transactions found" 404) ∧
    (transactions ≠ [] → getAllTransactions transactions = .ok transactions) ∧
    (accounts = [] →
      getAllAccounts (some u) accounts = .err "No accounts found" 404) ∧
    (accounts ≠ [] → getAllAccounts (some u) accounts = .ok accounts) ∧
    getAllTransactions transactions ≠ .ok ([] : List Transaction) ∧
    getAllAccounts user accounts ≠ .ok ([] : List Account) := by
  refine ⟨?_, ?_, ?_, ?_, ?_, ?_⟩
  · intro h; subst h; rfl
  · intro h; simp [getAllTransactions, h]
  · intro h; subst h; simp [getAllAccounts, hadmin]
  · intro h; simp [getAllAccounts, hadmin, h]
  · cases transactions <;> simp [getAllTransactions]
  · cases user with
    | none => simp [getAllAccounts]
    | some v =>
      cases accounts with
      | nil => simp [getAllAccounts]; split_ifs <;> simp
      | cons a l => simp [getAllAccounts]; split_ifs <;> simp

/-- Witness for C6 at a one-element transaction collection, a one-element
account collection, an Admin caller and an absent caller. -/
theorem getAll_empty_collection_404_witness :
    (adminUser.role = Role.Admin) ∧
    (([sampleTransaction] = [] →
      getAllTransactions [sampleTransaction] = .err "No transactions found" 404) ∧
    ([sampleTransaction] ≠ [] →
      getAllTransactions [sampleTransaction] = .ok [sampleTransaction]) ∧
    ([aliceAccount] = [] →
      getAllAccounts (some adminUser) [aliceAccount] = .err "No accounts found" 404) ∧
    ([aliceAccount] ≠ [] →
      getAllAccounts (some adminUser) [aliceAccount] = .ok [aliceAccount]) ∧
    getAllTransactions [sampleTransaction] ≠ .ok ([] : List Transaction) ∧
    getAllAccounts none [aliceAccount] ≠ .ok ([] : List Account)) :=
  ⟨rfl, getAll_empty_collection_404 [sampleTransaction] [aliceAccount]
    adminUser none rfl⟩

/-- C7 counterexample: the 400 validation response `register` writes
directly (`res.status(400).json({errors})`) carries none of the fields
status, statusCode, message, stack of the centralized error shape. -/
theorem register_error_lacks_central_shape :
    (register regParseDate hashPw regNow [] missingFieldsReq).fst.status = 400 ∧
    (renderRegister (register regParseDate hashPw regNow [] missingFieldsReq).fst).lookup "status" = none ∧
    (renderRegister (register regParseDate hashPw regNow [] missingFieldsReq).fst).lookup "statusCode" = none ∧
    (renderRegister (register regParseDate hashPw regNow [] missingFieldsReq).fst).lookup "message" = none ∧
    (renderRegister (register regParseDate hashPw regNow [] missingFieldsReq).fst).lookup "stack" = none :=
  ⟨rfl, rfl, rfl, rfl, rfl⟩

/-- C7 amended: every error funneled through the centralized
`errorHandler` carries `{status: "error", statusCode, message, stack}`
with the stack included unconditionally, but the validation errors
`register` writes directly bypass it and carry only an `errors` array. -/
theorem errorHandler_emits_central_shape (err : AppError) (msgs : List String) :
    (errorHandler err).fst = (if err.statusCode = 0 then 500 else err.statusCode) ∧
    (errorHandler err).snd.lookup "status" = some (.str "error") ∧
    (errorHandler err).snd.lookup "statusCode" =
      some (.num ((if err.statusCode = 0 then 500 else err.statusCode : Nat) : Int)) ∧
    (errorHandler err).snd.lookup "message" =
      some (.str (if err.message.isEmpty then "Internal Server Error" else err.message)) ∧
    (errorHandler err).snd.lookup "stack" = some (.str err.stack) ∧
    (renderRegister (.validationErr msgs)).lookup "errors" =
      some (.arr (msgs.map (fun m => .obj [("msg", .str m)]))) ∧
    (renderRegister (.validationErr msgs)).lookup "status" = none ∧
    (renderRegister (.validationErr msgs)).lookup "statusCode" = none ∧
    (renderRegister (.validationErr msgs)).lookup "stack" = none ∧
    (RegisterResult.validationErr msgs).status = 400 :=
  ⟨rfl, rfl, rfl, rfl, rfl, rfl, rfl, rfl, rfl, rfl⟩

/-- With no `accountId` in the body, `findByIdAndUpdate`'s field merge
leaves `_id` and `accountId` of a therapist document unchanged. -/
theorem applyTherapistUpdate_idAccount (b : TherapistUpdate) (t : Therapist)
    (hb : b.accountId = none) :
    (applyTherapistUpdate b t)._id = t._id ∧
    (applyTherapistUpdate b t).accountId = t.accountId := by
  simp [applyTherapistUpdate, hb]

/-- One `updateTherapist` call, whatever its body and target, preserves
the `(_id, accountId)` pairing of every stored therapist. -/
theorem updateTherapist_preserves_idAccount (tid : String)
    (b : TherapistUpdate) (ts : List Therapist) :
    (updateTherapist tid b ts).snd.map (fun t => (t._id, t.accountId)) =
      ts.map (fun t => (t._id, t.accountId)) := by
  unfold updateTherapist
  cases hb : b.accountId with
  | some v => simp
  | none =>
    simp only [hb, Option.isSome_none, Bool.false_eq_true, if_false]
    cases hf : ts.find? (fun t => t._id == tid) with
    | none => simp
    | some t =>
      simp only [List.map_map]
      refine List.map_congr_left ?_
      intro x hx
      by_cases hxt : x._id == tid
      · simp [Function.comp, hxt, applyTherapistUpdate, hb]
      · simp [Function.comp, hxt]

/-- C8: a therapist's accountId is immutable through the update endpoint —
any body containing `accountId` is rejected with 400 leaving the store
unchanged, a single update never alters any therapist's `(_id, accountId)`
pairing, and hence no sequence of updates can change a therapist's
accountId. -/
theorem updateTherapist_accountId_immutable
    (tid : String) (b : TherapistUpdate) (therapists : List Therapist)
    (ops : List (String × TherapistUpdate)) :
    (b.accountId.isSome = true →
      updateTherapist tid b therapists =
        (.err "Cannot update accountId" 400, therapists) ∧
      (updateTherapist tid b therapists).fst.status = 400) ∧
    ((updateTherapist tid b therapists).snd.map (fun t => (t._id, t.accountId)) =
      therapists.map (fun t => (t._id, t.accountId))) ∧
    ((ops.foldl (fun ts op => (updateTherapist op.fst op.snd ts).snd) therapists).map
        (fun t => (t._id, t.accountId)) =
      therapists.map (fun t => (t._id, t.accountId))) := by
  refine ⟨?_, updateTherapist_preserves_idAccount tid b therapists, ?_⟩
  · intro h
    simp [updateTherapist, h, TherapistUpdateResult.status]
  · induction ops generalizing therapists with
    | nil => rfl
    | cons op rest ih =>
      simp only [List.foldl_cons]
      exact (ih _).trans (updateTherapist_preserves_idAccount op.fst op.snd therapists)

/-- Witness for C8 at a concrete store, body and operation sequence. -/
theorem updateTherapist_accountId_immutable_witness :
    (accountIdUpdate.accountId.isSome = true) ∧
    ((accountIdUpdate.accountId.isSome = true →
      updateTherapist "th1" accountIdUpdate [sampleTherapist] =
        (.err "Cannot update accountId" 400, [sampleTherapist]) ∧
      (updateTherapist "th1" accountIdUpdate [sampleTherapist]).fst.status = 400) ∧
    ((updateTherapist "th1" accountIdUpdate [sampleTherapist]).snd.map
        (fun t => (t._id, t.accountId)) =
      [sampleTherapist].map (fun t => (t._id, t.accountId))) ∧
    ((sampleOps.foldl (fun ts op => (updateTherapist op.fst op.snd ts).snd)
        [sampleTherapist]).map (fun t => (t._id, t.accountId)) =
      [sampleTherapist].map (fun t => (t._id, t.accountId)))) :=
  ⟨rfl, updateTherapist_accountId_immutable "th1" accountIdUpdate
    [sampleTherapist] sampleOps⟩

end Skincare
